import Mathlib

attribute [local semireducible] Rat.mul Rat.add Rat.sub Rat.inv

/-!
# Verification of the Nightscout daily-report pipeline

Shallow embedding of the two near-duplicate report pipelines of this
repository:

* `App.*`  embeds `src/app.py` (`DataProcessor.parse_notes`,
  `DataProcessor.process_report_data`);
* `NW.*`   embeds `src/nightscout_web_app.py` (`parse_notes`,
  `prepare_report_data`).

Modelling conventions:

* Python floats are modelled as exact rationals (`ℚ`); `float(...)` string
  parsing is modelled by `floatParse`, which covers sign, integer and
  fractional digits (the exponent/`nan`/`inf`/underscore forms accepted by
  Python never occur in this pipeline's data and are out of the model).
* Python `round` (banker's rounding, half to even) is modelled by `pyRound`.
* ISO-8601 timestamps are modelled by their parsed value: a record carries
  `Option Int` (epoch seconds), `none` standing for a missing or unparseable
  timestamp (an exception from `datetime.fromisoformat`).  The source sorts
  records by the raw timestamp string; for the canonical fixed-width
  same-offset strings produced by the data source, lexicographic string
  order coincides with the order of parsed instants, which is the order
  used here (`none`, the empty-string default, sorting first).
* `try/except` around a whole loop body is modelled by an `Option`-valued
  row builder (`App.processOne`); the uncaught exception in
  `nightscout_web_app.py`'s treatment loop is modelled by `Except`.
-/

/-- Strip leading and trailing whitespace from a char list (Python
`str.strip()`; list-based so that the kernel can evaluate it). -/
def trimL (cs : List Char) : List Char :=
  ((cs.dropWhile Char.isWhitespace).reverse.dropWhile Char.isWhitespace).reverse

/-- Python `str.strip()` on strings. -/
def pyStrip (s : String) : String := (trimL s.toList).asString

/-- Split a char list at every character satisfying `p`, keeping empty
pieces (the behaviour of `str.split(sep)` for a one-character separator). -/
def splitPredL (p : Char → Bool) : List Char → List (List Char)
  | [] => [[]]
  | a :: as =>
    match splitPredL p as with
    | [] => [[]]
    | h :: t => if p a then [] :: h :: t else (a :: h) :: t

/-- Python `str.split()` with no separator: split on whitespace runs,
dropping empty tokens. -/
def pySplit (s : String) : List String :=
  ((splitPredL (fun c => c.isWhitespace) s.toList).map List.asString).filter (fun t => t ≠ "")

/-- `startsWithL needle hay`: the char list `hay` starts with `needle`. -/
def startsWithL : List Char → List Char → Bool
  | [], _ => true
  | _ :: _, [] => false
  | a :: as, b :: bs => a == b && startsWithL as bs

/-- `hasSubL needle hay`: `needle` occurs as a contiguous sublist of `hay`. -/
def hasSubL (needle : List Char) : List Char → Bool
  | [] => startsWithL needle []
  | c :: t => startsWithL needle (c :: t) || hasSubL needle t

/-- Python `needle in hay` on strings: substring containment. -/
def strHas (hay needle : String) : Bool :=
  hasSubL needle.toList hay.toList

/-- `s.startswith(pre)`. -/
def sStartsWith (s pre : String) : Bool := startsWithL pre.toList s.toList

/-- `s.upper()` (ASCII; the decisive letters here are ASCII). -/
def sUpper (s : String) : String := (s.toList.map Char.toUpper).asString

/-- Replace every non-overlapping occurrence of `pat` (left to right) by
`rep`; `skip` counts pattern characters still to be consumed after a
match.  Structural in the char list so that the kernel can evaluate it. -/
def replSkip (pat rep : List Char) : Nat → List Char → List Char
  | _, [] => []
  | Nat.succ k, _ :: as => replSkip pat rep k as
  | 0, a :: as =>
    if startsWithL pat (a :: as) && !pat.isEmpty then
      rep ++ replSkip pat rep (pat.length - 1) as
    else a :: replSkip pat rep 0 as

/-- Python `s.replace(pat, rep)`. -/
def sReplace (s pat rep : String) : String :=
  (replSkip pat.toList rep.toList 0 s.toList).asString

/-- All characters are ASCII digits. -/
def allDigits (cs : List Char) : Bool := cs.all (fun c => c.isDigit)

/-- Numeric value of a digit string. -/
def natOfDigits (cs : List Char) : Nat :=
  cs.foldl (fun a c => a * 10 + (c.toNat - 48)) 0

/-- Unsigned part of Python `float(...)` parsing: digits with an optional
decimal point (`"1"`, `"1.5"`, `"1."`, `".5"`). -/
def parseUnsigned (s : String) : Option ℚ :=
  match splitPredL (fun c => c == '.') s.toList with
  | [i] =>
      if !i.isEmpty && allDigits i then some (natOfDigits i) else none
  | [i, f] =>
      if (!i.isEmpty || !f.isEmpty) && allDigits i && allDigits f then
        some ((natOfDigits i : ℚ) + (natOfDigits f : ℚ) / (10 ^ f.length))
      else none
  | _ => none

/-- Model of Python `float(s)` restricted to the sign/digits/point forms
(`try: float(s) except ValueError` is modelled by the `Option`). -/
def floatParse (s : String) : Option ℚ :=
  let t := pyStrip s
  if sStartsWith t "+" then parseUnsigned (t.drop 1)
  else if sStartsWith t "-" then (parseUnsigned (t.drop 1)).map (fun q => -q)
  else parseUnsigned t

/-- Floor of a rational, computed on the normalized numerator and
denominator (kernel-reducible, unlike the `FloorRing` notation). -/
def ratFloor (q : ℚ) : Int := Int.fdiv q.num q.den

/-- Python `round(q)`: round half to even. -/
def pyRound (q : ℚ) : Int :=
  let n := ratFloor q
  let r := q - n
  if r < 1/2 then n
  else if 1/2 < r then n + 1
  else if n % 2 = 0 then n else n + 1

/-- Python `round(q, 2)`. -/
def round2 (q : ℚ) : ℚ := (pyRound (q * 100) : ℚ) / 100

/-- Python `f"{q:.1f}"`: fixed one-decimal formatting (half-to-even). -/
def oneDec (q : ℚ) : String :=
  let n := pyRound (q * 10)
  (if n < 0 then "-" else "") ++ toString (n.natAbs / 10) ++ "." ++ toString (n.natAbs % 10)

/-- Two-digit decimal rendering of `0 ≤ n < 100`. -/
def twoDigits (n : Int) : String :=
  (if n < 10 then "0" else "") ++ toString n

/-- `strftime('%H:%M')` of a UTC epoch instant converted to JST (UTC+9). -/
def hhmmJST (t : Int) : String :=
  let j := t + 9 * 3600
  twoDigits (Int.emod (Int.ediv j 3600) 24) ++ ":" ++ twoDigits (Int.emod (Int.ediv j 60) 60)

/-- `|a - b|` on integers. -/
def absDiffI (a b : Int) : Int := (a - b).natAbs

/-- Order on optional timestamps used by the sort keys: a missing timestamp
(the `''` default of `x.get('created_at', '')`) sorts first. -/
def optLe : Option Int → Option Int → Bool
  | none, _ => true
  | some _, none => false
  | some x, some y => x ≤ y

/-- Python `min(l, key := f)`: the first minimizer of `f` in `l`. -/
def minByFirst {α : Type} (f : α → Int) : List α → Option α
  | [] => none
  | x :: xs => some (xs.foldl (fun best y => if f y < f best then y else best) x)

/-- One glucose reading (an `entries.json` record).  `dateString` is the
parsed timestamp (`none` = missing or unparseable). -/
structure Entry where
  dateString : Option Int
  sgv : Option Int
  direction : Option String
  delta : Option ℚ
deriving Repr, DecidableEq

/-- One treatment (a `treatments.json` record); the text fields default to
the `''` used by `dict.get(..., '')`. -/
structure Treatment where
  created_at : Option Int
  notes : String
  carbs : String
  insulin : String
  glucose : String
deriving Repr, DecidableEq

/-- Result of `parse_notes`. -/
structure Parsed where
  cir : Option ℚ := none
  predicted_insulin : Option ℚ := none
  insulin_type : Option String := none
  foods : List String := []
  basal_amount : Option ℚ := none
deriving Repr, DecidableEq

/-- A table cell that is either a number or a string (the Python rows mix
floats and `"-"` placeholders in the same field). -/
inductive Cell where
  | num (q : ℚ)
  | str (s : String)
deriving Repr, DecidableEq

/-- One row of `table_data`. -/
structure Row where
  time : String
  bg : String
  cir : Cell
  carbs : String
  predicted : Cell
  actual : String
  type : String
  food : String
deriving Repr, DecidableEq

/-- Running statistics accumulator. -/
structure Stats where
  total_insulin : ℚ
  basal_insulin : ℚ
  total_carbs : ℚ
deriving Repr, DecidableEq

/-- The emitted report structure. -/
structure Report where
  chart_times : List String
  chart_bgs : List Int
  table_data : List Row
  avg_bg : Int
  total_insulin : ℚ
  basal_insulin : ℚ
  total_carbs : ℚ
  tcir : String
deriving Repr, DecidableEq

/-- Direction-code-to-arrow table shared by both sources
(`get_direction_arrow`). -/
def direction_arrow (direction : Option String) : String :=
  match direction with
  | none => ""
  | some d =>
    if d = "DoubleUp" then "⇈"
    else if d = "SingleUp" then "↑"
    else if d = "FortyFiveUp" then "↗"
    else if d = "Flat" then "→"
    else if d = "FortyFiveDown" then "↘"
    else if d = "SingleDown" then "↓"
    else if d = "DoubleDown" then "⇊"
    else if d = "NOT COMPUTABLE" then "?"
    else if d = "RATE OUT OF RANGE" then "?"
    else ""

/-- `app.py` line 99: strip each line of the note and keep the non-empty
ones. -/
def noteLines (notes : String) : List String :=
  (((splitPredL (fun c => c == '\n') (trimL notes.toList)).map
      (fun l => (trimL l).asString)).filter (fun l => l ≠ ""))

/-- `value or "-"` rendering of the `cir` and `predicted` cells, shared by
`app.py` lines 245/247 and `nightscout_web_app.py` lines 246/248 (a `None`
and a 0.0 both fall back to `"-"`). -/
def cellOf (v : Option ℚ) : Cell :=
  match v with
  | some q => if q = 0 then Cell.str "-" else Cell.num q
  | none => Cell.str "-"

/-- `(basal, bolus)` insulin contributions of one treatment
(`if is_basal and basal_amount: ... elif ...`), identical in `app.py`
lines 214-220 and `nightscout_web_app.py` lines 220-228. -/
def insulinContrib (foods : List String) (basal : Option ℚ) (insulin : String) : ℚ × ℚ :=
  if (foods.any (fun f => f = "基礎インスリン") = true) ∧ basal.getD 0 ≠ 0 then
    (basal.getD 0, 0)
  else
    (0, (floatParse insulin).getD 0)

/-- `sorted(entries, key=lambda x: x['dateString'])` of both sources. -/
def sortEntries (es : List Entry) : List Entry :=
  es.mergeSort (fun a b => optLe a.dateString b.dateString)

/-- `sorted(treatments, key=lambda x: x.get('created_at', ''))` of both
sources. -/
def sortTreatments (ts : List Treatment) : List Treatment :=
  ts.mergeSort (fun a b => optLe a.created_at b.created_at)

/-- Chart points built from the sorted entries (`app.py` lines 165-175,
`nightscout_web_app.py` lines 144-153). -/
def chartPoints (es : List Entry) : List (String × Int) :=
  es.filterMap (fun e =>
    match e.dateString, e.sgv with
    | some t, some v => some (hhmmJST t, v)
    | _, _ => none)

namespace App

/-- `DataProcessor.parse_notes` of `src/app.py` (lines 88-155). -/
def parse_notes (notes : String) : Parsed :=
  if notes = "" then {} else
  match noteLines notes with
  | [] => {}
  | first_line :: rest =>
    if sStartsWith first_line "Tore " || sStartsWith first_line "トレ " then
      let parts := pySplit first_line
      { foods := "基礎インスリン" :: rest,
        basal_amount := match parts with | _ :: p1 :: _ => floatParse p1 | _ => none }
    else if sUpper first_line = "B" then
      { foods := "ぶどう糖補食" :: rest }
    else if sUpper first_line = "N" || sUpper first_line = "F" then
      { insulin_type := some (sUpper first_line), foods := rest }
    else
      let test_line := pyStrip (sReplace (sReplace first_line "cir" "") "CIR" "")
      match pySplit test_line with
      | [] => { foods := first_line :: rest }
      | p0 :: ps =>
        match floatParse p0 with
        | none => { foods := first_line :: rest }
        | some q =>
          match ps with
          | [] => { cir := some q, foods := rest }
          | p1 :: _ =>
            if p1.back.toUpper = 'N' || p1.back.toUpper = 'F' then
              { cir := some q,
                insulin_type := some p1.back.toUpper.toString,
                predicted_insulin := floatParse (p1.dropRight 1),
                foods := rest }
            else
              { cir := some q, predicted_insulin := floatParse p1, foods := rest }

/-- `app.py` lines 202-212: carbs parsing, carbs total contribution and the
automatic snack marker for carbs in `[1, 3]`. -/
def carbStep (carbs : String) (foods : List String) : ℚ × List String :=
  if carbs ≠ "" then
    match floatParse carbs with
    | some v =>
        (v,
         if 1 ≤ v ∧ v ≤ 3 ∧ ¬(foods.any (fun f => strHas f "補食") = true) then
           "補食" :: foods
         else foods)
    | none => (0, foods)
  else (0, foods)

/-- `app.py` lines 222-236: the nearest-reading CGM display (empty when no
reading lies within the 900 s window, or when the matched `sgv` is null or
zero). -/
def cgmDisplay (entries : List Entry) (tts : Int) : String :=
  match minByFirst (fun e => absDiffI (e.dateString.getD 0) tts) entries with
  | none => ""
  | some closest =>
    if absDiffI (closest.dateString.getD 0) tts < 900 then
      match closest.sgv with
      | some v =>
        if v ≠ 0 then
          let delta := closest.delta.getD 0
          let delta_str :=
            if delta ≠ 0 then
              " (" ++ (if 0 < delta then "+" else "") ++ toString (pyRound delta) ++ ")"
            else ""
          toString v ++ delta_str ++ " " ++ direction_arrow closest.direction
        else ""
      | none => ""
    else ""

/-- One iteration of the `for treatment in treatments_sorted` loop of
`app.py` (lines 190-255).  The whole body runs under `try/except ...
continue`, so the result row is optional: an unparseable `created_at`
skips the row before any statistics update, and an unparseable
`dateString` among a non-empty `entries` raises inside the nearest-reading
`min(...)` — after the statistics update but before the row append. -/
def processOne (entries : List Entry) (s : Stats) (t : Treatment) : Stats × Option Row :=
  match t.created_at with
  | none => (s, none)
  | some tts =>
    let parsed := parse_notes t.notes
    let cf := carbStep t.carbs parsed.foods
    let bi := insulinContrib cf.2 parsed.basal_amount t.insulin
    let s' : Stats :=
      { total_insulin := s.total_insulin + bi.2,
        basal_insulin := s.basal_insulin + bi.1,
        total_carbs := s.total_carbs + cf.1 }
    if entries ≠ [] ∧ entries.any (fun e => e.dateString = none) then
      (s', none)
    else
      let bg0 := cgmDisplay entries tts
      let bg1 :=
        if t.glucose ≠ "" then
          if bg0 ≠ "" then bg0 ++ " / 実測:" ++ t.glucose else "実測:" ++ t.glucose
        else bg0
      (s', some {
        time := hhmmJST tts,
        bg := if bg1 = "" then "-" else bg1,
        cir := cellOf parsed.cir,
        carbs := if t.carbs ≠ "" then t.carbs ++ "g" else "-",
        predicted := cellOf parsed.predicted_insulin,
        actual := if t.insulin ≠ "" then t.insulin else "-",
        type := match parsed.insulin_type with
                | none => "-"
                | some ty => if ty = "" then "-" else ty,
        food := if cf.2 ≠ [] then String.intercalate ", " cf.2 else "-" })

/-- The treatment loop: threads the statistics accumulator and collects the
rows that were built. -/
def runRows (entries : List Entry) : Stats → List Treatment → Stats × List Row
  | s, [] => (s, [])
  | s, t :: ts =>
    let step := processOne entries s t
    let rec_ := runRows entries step.1 ts
    (rec_.1, step.2.toList ++ rec_.2)

/-- `DataProcessor.process_report_data` of `src/app.py` (lines 157-269). -/
def process (entries : List Entry) (treatments : List Treatment) : Report :=
  let ch := chartPoints (sortEntries entries)
  let bg_values := entries.filterMap Entry.sgv
  let sr := runRows entries ⟨0, 0, 0⟩ (sortTreatments treatments)
  { chart_times := ch.map Prod.fst,
    chart_bgs := ch.map Prod.snd,
    table_data := sr.2,
    avg_bg := if bg_values = [] then 0 else pyRound ((bg_values.sum : ℚ) / bg_values.length),
    total_insulin := round2 sr.1.total_insulin,
    basal_insulin := round2 sr.1.basal_insulin,
    total_carbs := sr.1.total_carbs,
    tcir := if 0 < sr.1.total_insulin then oneDec (sr.1.total_carbs / sr.1.total_insulin)
            else "-" }

end App

namespace NW

/-- `parse_notes` of `src/nightscout_web_app.py` (lines 57-135).  It keeps
the raw line list of `notes.strip().split('\n')`, takes the stripped first
element as the decisive line, and strips/filters the remaining lines when
appending them as food items; it also strips the literal `'Cir'` (in
addition to `'cir'` and `'CIR'`) before the ratio-format test. -/
def parse_notes (notes : String) : Parsed :=
  if notes = "" then {} else
  match (splitPredL (fun c => c == '\n') (trimL notes.toList)).map List.asString with
  | [] => {}
  | l0 :: rest0 =>
    let first_line := pyStrip l0
    let rest := (rest0.map pyStrip).filter (fun l => l ≠ "")
    if sStartsWith first_line "Tore " || sStartsWith first_line "トレ " then
      { foods := "基礎インスリン" :: rest,
        basal_amount :=
          match pySplit first_line with | _ :: p1 :: _ => floatParse p1 | _ => none }
    else if sUpper first_line = "B" then
      { foods := "ぶどう糖補食" :: rest }
    else if sUpper first_line = "N" || sUpper first_line = "F" then
      { insulin_type := some (sUpper first_line), foods := rest }
    else
      let test_line :=
        pyStrip (sReplace (sReplace (sReplace first_line "cir" "") "CIR" "") "Cir" "")
      match pySplit test_line with
      | [] => { foods := ((l0 :: rest0).map pyStrip).filter (fun l => l ≠ "") }
      | p0 :: ps =>
        match floatParse p0 with
        | none => { foods := ((l0 :: rest0).map pyStrip).filter (fun l => l ≠ "") }
        | some q =>
          match ps with
          | [] => { cir := some q, foods := rest }
          | p1 :: _ =>
            let second_part := pyStrip p1
            if second_part ≠ "" ∧
               (second_part.back.toUpper = 'N' ∨ second_part.back.toUpper = 'F') then
              { cir := some q,
                insulin_type := some second_part.back.toUpper.toString,
                predicted_insulin := floatParse (second_part.dropRight 1),
                foods := rest }
            else
              { cir := some q, predicted_insulin := floatParse second_part, foods := rest }

/-- `nightscout_web_app.py` lines 176-193: nearest-reading CGM display.
There is no tolerance window: whatever the distance, the closest reading's
`sgv` is shown when truthy.  The surrounding `try/except: pass` makes an
unparseable reading timestamp yield the empty display. -/
def bgDisplay (entries : List Entry) (tts : Int) : String :=
  if entries = [] then "" else
  if entries.any (fun e => e.dateString = none) then "" else
  match minByFirst (fun e => absDiffI (e.dateString.getD 0) tts) entries with
  | none => ""
  | some closest =>
    match closest.sgv with
    | some v =>
      if v ≠ 0 then
        let base := toString v
        let withDelta :=
          match closest.delta with
          | some d =>
              base ++ " (" ++ (if 0 < pyRound d then "+" else "") ++ toString (pyRound d) ++ ")"
          | none => base
        match closest.direction with
        | some dir =>
            if dir ≠ "" then withDelta ++ " " ++ direction_arrow (some dir) else withDelta
        | none => withDelta
      else ""
    | none => ""

/-- One iteration of the treatment loop of `prepare_report_data`
(`nightscout_web_app.py` lines 167-252).  The `datetime.fromisoformat`
call on `created_at` is not guarded, so an unparseable treatment
timestamp raises out of the whole pipeline (`Except.error`).  The snack
check tests the marker substring against the concatenation
`''.join(foods)`. -/
def processOne (entries : List Entry) (s : Stats) (t : Treatment) : Except Unit (Stats × Row) :=
  match t.created_at with
  | none => Except.error ()
  | some tts =>
    let bg0 := bgDisplay entries tts
    let bg1 :=
      if t.glucose ≠ "" then
        if bg0 ≠ "" then bg0 ++ " / 実測:" ++ t.glucose else "実測:" ++ t.glucose
      else bg0
    let parsed := parse_notes t.notes
    let foods :=
      if t.carbs ≠ "" then
        match floatParse t.carbs with
        | some v =>
          if (1 ≤ v ∧ v ≤ 3) ∧
             ¬(parsed.foods.contains "ぶどう糖補食" = true) ∧
             ¬(strHas (String.join parsed.foods) "補食" = true) then
            "補食" :: parsed.foods
          else parsed.foods
        | none => parsed.foods
      else parsed.foods
    let bi := insulinContrib foods parsed.basal_amount t.insulin
    let cAdd := if t.carbs ≠ "" then (floatParse t.carbs).getD 0 else 0
    let s' : Stats :=
      { total_insulin := s.total_insulin + bi.2,
        basal_insulin := s.basal_insulin + bi.1,
        total_carbs := s.total_carbs + cAdd }
    Except.ok (s', {
      time := hhmmJST tts,
      bg := if bg1 = "" then "-" else bg1,
      cir := cellOf parsed.cir,
      carbs := if t.carbs ≠ "" then t.carbs ++ "g" else "-",
      predicted := cellOf parsed.predicted_insulin,
      actual := if t.insulin ≠ "" then t.insulin else "-",
      type := match parsed.insulin_type with
              | none => "-"
              | some ty => if ty = "" then "-" else ty,
      food := if foods ≠ [] then String.intercalate ", " foods else "-" })

/-- The treatment loop, aborting on the first error. -/
def runRows (entries : List Entry) : Stats → List Treatment → Except Unit (Stats × List Row)
  | s, [] => Except.ok (s, [])
  | s, t :: ts =>
    match processOne entries s t with
    | Except.error e => Except.error e
    | Except.ok sr =>
      match runRows entries sr.1 ts with
      | Except.error e => Except.error e
      | Except.ok rest => Except.ok (rest.1, sr.2 :: rest.2)

/-- `prepare_report_data` of `src/nightscout_web_app.py` (lines 137-266). -/
def prepare (entries : List Entry) (treatments : List Treatment) : Except Unit Report :=
  let ch := chartPoints (sortEntries entries)
  let bg_values := entries.filterMap Entry.sgv
  match runRows entries ⟨0, 0, 0⟩ (sortTreatments treatments) with
  | Except.error e => Except.error e
  | Except.ok sr =>
    Except.ok {
      chart_times := ch.map Prod.fst,
      chart_bgs := ch.map Prod.snd,
      table_data := sr.2,
      avg_bg := if bg_values = [] then 0 else pyRound ((bg_values.sum : ℚ) / bg_values.length),
      total_insulin := sr.1.total_insulin,
      basal_insulin := sr.1.basal_insulin,
      total_carbs := sr.1.total_carbs,
      tcir := if 0 < sr.1.total_insulin then oneDec (sr.1.total_carbs / sr.1.total_insulin)
              else "-" }

end NW

/-- Modelled from the spec: step 5 of §4.1 says "strip case-insensitive
substring \"cir\" from the first line".  This definition follows the
spec's words (any case variant of the three letters is removed) and is
used only to compare the spec's claimed stripping with the literal
`replace('cir', ...)/replace('CIR', ...)` chains of the two sources. -/
def ciStripCirL : List Char → List Char
  | c :: i :: r :: rest =>
    if c.toUpper = 'C' ∧ i.toUpper = 'I' ∧ r.toUpper = 'R' then ciStripCirL rest
    else c :: ciStripCirL (i :: r :: rest)
  | l => l

/-- Modelled from the spec: case-insensitive removal of the substring
`"cir"` on strings, see `ciStripCirL`. -/
def specCiStripCir (s : String) : String :=
  (ciStripCirL s.toList).asString

/-! ## Helper lemmas -/

/-- Sorting a one-element list is the identity (the sorts are stable merge
sorts). -/
theorem sortEntries_singleton (e : Entry) : sortEntries [e] = [e] :=
  List.mergeSort_of_sorted (List.pairwise_singleton _ _)

/-- Sorting a one-element treatment list is the identity. -/
theorem sortTreatments_singleton (t : Treatment) : sortTreatments [t] = [t] :=
  List.mergeSort_of_sorted (List.pairwise_singleton _ _)

/-- The running fold behind `minByFirst` never exceeds the seed or any
scanned element. -/
theorem foldl_min_le {α : Type} (f : α → Int) (xs : List α) (x : α) :
    f (xs.foldl (fun best y => if f y < f best then y else best) x) ≤ f x ∧
    ∀ e ∈ xs, f (xs.foldl (fun best y => if f y < f best then y else best) x) ≤ f e := by
  induction xs generalizing x with
  | nil => simp
  | cons y ys ih =>
    have h := ih (if f y < f x then y else x)
    constructor
    · refine le_trans h.1 ?_
      by_cases hlt : f y < f x
      · simp [hlt]; exact le_of_lt hlt
      · simp [hlt]
    · intro e he
      rcases List.mem_cons.mp he with rfl | he
      · refine le_trans h.1 ?_
        by_cases hlt : f e < f x
        · simp [hlt]
        · simp [hlt]; exact le_of_not_lt hlt
      · exact h.2 e he

/-- `minByFirst` returns a minimizer. -/
theorem minByFirst_le {α : Type} (f : α → Int) (l : List α) (c : α)
    (hc : minByFirst f l = some c) : ∀ e ∈ l, f c ≤ f e := by
  cases l with
  | nil => cases hc
  | cons x xs =>
    have hx : c = xs.foldl (fun best y => if f y < f best then y else best) x := by
      simpa [minByFirst] using hc.symm
    intro e he
    rcases List.mem_cons.mp he with rfl | he
    · rw [hx]; exact (foldl_min_le f xs e).1
    · rw [hx]; exact (foldl_min_le f xs x).2 e he

/-! ## C1 — nearest-reading correlation and the 900-second window -/

/-- C1 (amended): in `app.py`, the correlator picks a reading minimizing
the absolute timestamp difference, and attaches no CGM value when no
readings exist or when that minimal difference is at least 900 seconds.
(`nightscout_web_app.py` has no such window — see `c1_counterexample`.) -/
theorem c1_correlator_window (entries : List Entry) (tts : Int) :
    (entries = [] → App.cgmDisplay entries tts = "") ∧
    ∀ c, minByFirst (fun e => absDiffI (e.dateString.getD 0) tts) entries = some c →
      ((∀ e ∈ entries,
          absDiffI (c.dateString.getD 0) tts ≤ absDiffI (e.dateString.getD 0) tts) ∧
       (900 ≤ absDiffI (c.dateString.getD 0) tts → App.cgmDisplay entries tts = "")) := by
  constructor
  · rintro rfl; rfl
  · intro c hc
    refine ⟨minByFirst_le _ entries c hc, ?_⟩
    intro h900
    simp [App.cgmDisplay, hc, not_lt.mpr h900]

/-- C1 witness: a single reading 1000 s away from the treatment yields an
empty CGM display in `app.py`. -/
theorem c1_correlator_window_witness :
    App.cgmDisplay
      [{ dateString := some 1000, sgv := some 140, direction := none, delta := none }] 0 = "" :=
  ((c1_correlator_window
      [{ dateString := some 1000, sgv := some 140, direction := none, delta := none }] 0).2
    { dateString := some 1000, sgv := some 140, direction := none, delta := none }
    (by decide)).2 (by decide)

/-- C1 counterexample: in `nightscout_web_app.py`, the same single reading
1000 s away (≥ 900 s) still gets its value 140 attached to the row, so the
claim is false of that pipeline. -/
theorem c1_counterexample :
    ((NW.prepare
        [{ dateString := some 1000, sgv := some 140, direction := none, delta := none }]
        [{ created_at := some 0, notes := "", carbs := "", insulin := "", glucose := "" }]).toOption.map
      (fun r => r.table_data.map Row.bg) = some ["140"]) ∧
    900 ≤ absDiffI 1000 0 := by
  constructor
  · simp only [NW.prepare, sortTreatments_singleton, sortEntries_singleton]
    rfl
  · decide

/-! ## C2 — per-record error handling -/

/-- When every reading timestamp is parseable, the `app.py` treatment loop
emits exactly one row per treatment with a parseable `created_at`. -/
theorem runRows_length (entries : List Entry)
    (h : entries.any (fun e => e.dateString = none) = false) :
    ∀ (ts : List Treatment) (s : Stats),
      (App.runRows entries s ts).2.length
        = (ts.filter (fun t => t.created_at.isSome)).length := by
  intro ts
  induction ts with
  | nil => intro s; rfl
  | cons t ts ih =>
    intro s
    cases hct : t.created_at with
    | none => simp [App.runRows, App.processOne, hct, ih]
    | some tts => simp [App.runRows, App.processOne, hct, h, ih]

/-- C2 counterexample: in `app.py`, one reading with an unparseable
timestamp makes the nearest-reading search raise for every treatment, so a
treatment whose own timestamp is fine produces no row (yet its insulin
still reaches the statistics): the report has no rows although one
treatment remained. -/
theorem c2_counterexample :
    (App.process [{ dateString := none, sgv := some 100, direction := none, delta := none }]
       [{ created_at := some 0, notes := "", carbs := "", insulin := "1", glucose := "" }]).table_data
      = [] ∧
    (App.process [{ dateString := none, sgv := some 100, direction := none, delta := none }]
       [{ created_at := some 0, notes := "", carbs := "", insulin := "1", glucose := "" }]).total_insulin
      = 1 := by
  constructor <;> (simp only [App.process, sortTreatments_singleton]; decide)

/-- C2 (amended): in `app.py`, provided every reading timestamp parses, a
treatment with an unparseable timestamp is skipped individually and every
remaining treatment produces its row; the pipeline itself is a total
function and never aborts. -/
theorem c2_rows_best_effort (entries : List Entry) (ts : List Treatment)
    (h : ∀ e ∈ entries, e.dateString.isSome) :
    (App.process entries ts).table_data.length
      = (ts.filter (fun t => t.created_at.isSome)).length := by
  have hany : entries.any (fun e => e.dateString = none) = false := by
    rw [List.any_eq_false]
    intro e he
    have hs := h e he
    cases hds : e.dateString with
    | none => rw [hds] at hs; cases hs
    | some v => simp
  have h1 : (App.process entries ts).table_data
      = (App.runRows entries ⟨0, 0, 0⟩ (sortTreatments ts)).2 := rfl
  rw [h1, runRows_length entries hany]
  rw [← List.countP_eq_length_filter, ← List.countP_eq_length_filter]
  exact (List.mergeSort_perm ts _).countP_eq _

/-- C2 witness: with one parseable reading, a good treatment and a
bad-timestamp treatment yield exactly one row. -/
theorem c2_rows_best_effort_witness :
    (App.process [{ dateString := some 0, sgv := some 100, direction := none, delta := none }]
       [{ created_at := some 60, notes := "", carbs := "", insulin := "", glucose := "" },
        { created_at := none, notes := "", carbs := "", insulin := "", glucose := "" }]).table_data.length
      = 1 :=
  (c2_rows_best_effort _ _ (by decide)).trans (by decide)

/-! ## C3 — basal/bolus classification -/

/-- C3 counterexample: a note `"Tore 0"` gives a *present* `basalAmount`
of 0 together with the basal marker, yet the insulin `"2"` is still added
to `totalInsulin` (Python truthiness treats the present 0.0 like an absent
value), contradicting the claim's branch condition. -/
theorem c3_counterexample :
    (App.parse_notes "Tore 0").basal_amount = some 0 ∧
    "基礎インスリン" ∈ (App.parse_notes "Tore 0").foods ∧
    (App.process []
       [{ created_at := some 0, notes := "Tore 0", carbs := "", insulin := "2", glucose := "" }]).total_insulin
      = 2 ∧
    (App.process []
       [{ created_at := some 0, notes := "Tore 0", carbs := "", insulin := "2", glucose := "" }]).basal_insulin
      = 0 := by
  refine ⟨by decide, by decide, ?_, ?_⟩ <;>
    (simp only [App.process, sortTreatments_singleton]; decide)

/-- C3 (amended): the two insulin branches are mutually exclusive — no
treatment ever contributes a nonzero amount to both totals — and the basal
branch fires exactly when the basal marker is among the food items and
`basalAmount` is present *and nonzero*; otherwise the parsed `insulin`
field (0 if unparseable or empty) goes to `totalInsulin`. -/
theorem c3_insulin_exclusive (foods : List String) (basal : Option ℚ) (ins : String) :
    (¬ ((insulinContrib foods basal ins).1 ≠ 0 ∧ (insulinContrib foods basal ins).2 ≠ 0)) ∧
    (∀ b : ℚ, (foods.any (fun f => f = "基礎インスリン") = true) → basal = some b → b ≠ 0 →
        insulinContrib foods basal ins = (b, 0)) ∧
    ((¬ ((foods.any (fun f => f = "基礎インスリン") = true) ∧ basal.getD 0 ≠ 0)) →
        insulinContrib foods basal ins = (0, (floatParse ins).getD 0)) := by
  unfold insulinContrib
  by_cases hb : (foods.any (fun f => f = "基礎インスリン") = true) ∧ basal.getD 0 ≠ 0
  · rw [if_pos hb]
    refine ⟨fun hcon => hcon.2 rfl, ?_, fun hn => absurd hb hn⟩
    intro b hf hsome hbne
    rw [hsome]
    rfl
  · rw [if_neg hb]
    refine ⟨fun hcon => hcon.1 rfl, ?_, fun _ => rfl⟩
    intro b hf hsome hbne
    exact absurd ⟨hf, by rw [hsome]; exact hbne⟩ hb

/-- C3 witness: a basal treatment with nonzero amount contributes to the
basal total only. -/
theorem c3_insulin_exclusive_witness :
    insulinContrib ["基礎インスリン"] (some 2) "1" = (2, 0) :=
  (c3_insulin_exclusive ["基礎インスリン"] (some 2) "1").2.1 2 (by decide) rfl (by decide)

/-! ## C4 — the tcir statistic -/

/-- C4 counterexample: the claim's own example is wrong — carbs 45 and
insulin 3 give `tcir = "15.0"`, not `"7.5"`; moreover with a negative
parsed insulin total (insulin field `"-1"`), `total_insulin ≠ 0` yet the
code still emits the placeholder (its guard is `> 0`, not `≠ 0`). -/
theorem c4_counterexample :
    (App.process []
       [{ created_at := some 0, notes := "", carbs := "45", insulin := "3", glucose := "" }]).tcir
      = "15.0" ∧
    ((App.process []
       [{ created_at := some 0, notes := "", carbs := "45", insulin := "3", glucose := "" }]).tcir
      = "7.5" → False) ∧
    (App.process []
       [{ created_at := some 0, notes := "", carbs := "45", insulin := "-1", glucose := "" }]).total_insulin
      = -1 ∧
    (App.process []
       [{ created_at := some 0, notes := "", carbs := "45", insulin := "-1", glucose := "" }]).tcir
      = "-" := by
  refine ⟨?_, ?_, ?_, ?_⟩ <;>
    (simp only [App.process, sortTreatments_singleton]; decide)

/-- C4 (amended): `tcir` is the placeholder `"-"` exactly when the
accumulated (pre-rounding) insulin total is not positive, and otherwise it
is `total_carbs / total_insulin` formatted to one decimal place; e.g.
carbs 45 and insulin 3 give `"15.0"`. -/
theorem c4_tcir (entries : List Entry) (ts : List Treatment) :
    ((App.runRows entries ⟨0, 0, 0⟩ (sortTreatments ts)).1.total_insulin ≤ 0 →
        (App.process entries ts).tcir = "-") ∧
    (0 < (App.runRows entries ⟨0, 0, 0⟩ (sortTreatments ts)).1.total_insulin →
        (App.process entries ts).tcir
          = oneDec ((App.runRows entries ⟨0, 0, 0⟩ (sortTreatments ts)).1.total_carbs
              / (App.runRows entries ⟨0, 0, 0⟩ (sortTreatments ts)).1.total_insulin)) := by
  have htc : (App.process entries ts).tcir
      = if 0 < (App.runRows entries ⟨0, 0, 0⟩ (sortTreatments ts)).1.total_insulin then
          oneDec ((App.runRows entries ⟨0, 0, 0⟩ (sortTreatments ts)).1.total_carbs
            / (App.runRows entries ⟨0, 0, 0⟩ (sortTreatments ts)).1.total_insulin)
        else "-" := rfl
  constructor
  · intro h; rw [htc, if_neg (not_lt.mpr h)]
  · intro h; rw [htc, if_pos h]

/-- C4 witness: the positive branch at carbs 45, insulin 3 yields `"15.0"`. -/
theorem c4_tcir_witness :
    (App.process []
       [{ created_at := some 0, notes := "", carbs := "45", insulin := "3", glucose := "" }]).tcir
      = "15.0" := by
  have h := (c4_tcir []
    [{ created_at := some 0, notes := "", carbs := "45", insulin := "3", glucose := "" }]).2
    (by rw [sortTreatments_singleton]; decide)
  rw [sortTreatments_singleton] at h
  exact h.trans (by decide)

/-! ## C5 — ratio-record parsing -/

/-- C5 counterexample: the note `"Cir 300 4.5N"` satisfies the claim's
hypothesis — after case-insensitive stripping of `"cir"` (= the
spec-modelled `specCiStripCir`) the first token `"300"` parses as a float
and the second token ends in `N` — yet `app.py` (which strips only the
literal `'cir'` and `'CIR'`) neither sets the ratio nor the insulin type,
classifying the entire line as a food item. -/
theorem c5_counterexample :
    pySplit (specCiStripCir "Cir 300 4.5N") = ["300", "4.5N"] ∧
    floatParse "300" = some 300 ∧
    "4.5N".back.toUpper = 'N' ∧
    (App.parse_notes "Cir 300 4.5N").insulin_type = none ∧
    (App.parse_notes "Cir 300 4.5N").cir = none ∧
    (App.parse_notes "Cir 300 4.5N").foods = ["Cir 300 4.5N"] := by
  refine ⟨by decide, by decide, by decide, by decide, by decide, by decide⟩

/-- C5 (amended): with the stripping as literally implemented in `app.py`
(`replace('cir','')` then `replace('CIR','')`, not case-insensitive), a
note in the ratio branch whose first token parses as a float and whose
second token ends in a letter uppercasing to `N` or `F` sets `cir`,
`insulinType` (that uppercase letter) and attempts `predictedInsulin` on
the remaining prefix of the token. -/
theorem c5_ratio_letter_parse (notes f p0 p1 : String) (ls ps : List String) (q : ℚ)
    (hne : ¬ notes = "")
    (hl : noteLines notes = f :: ls)
    (hb1 : sStartsWith f "Tore " = false)
    (hb2 : sStartsWith f "トレ " = false)
    (hb3 : ¬ sUpper f = "B")
    (hb4 : ¬ sUpper f = "N")
    (hb5 : ¬ sUpper f = "F")
    (hp : pySplit (pyStrip (sReplace (sReplace f "cir" "") "CIR" "")) = p0 :: p1 :: ps)
    (hq : floatParse p0 = some q)
    (hNF : p1.back.toUpper = 'N' ∨ p1.back.toUpper = 'F') :
    App.parse_notes notes =
      { cir := some q,
        insulin_type := some p1.back.toUpper.toString,
        predicted_insulin := floatParse (p1.dropRight 1),
        foods := ls } := by
  unfold App.parse_notes
  rw [if_neg hne, hl]
  simp only [hb1, hb2, Bool.or_self, Bool.false_eq_true, if_false]
  rw [if_neg hb3, if_neg (by simp [hb4, hb5])]
  simp only [hp, hq]
  rcases hNF with h | h <;> simp [h]

/-- C5 witness: parsing `"300 4.5N"` yields ratio 300, insulin type `N`
and predicted insulin 4.5. -/
theorem c5_ratio_letter_parse_witness :
    App.parse_notes "300 4.5N" =
      { cir := some 300,
        insulin_type := some "N",
        predicted_insulin := some (9/2 : ℚ),
        foods := [] } := by
  have h := c5_ratio_letter_parse "300 4.5N" "300 4.5N" "300" "4.5N" [] [] 300
    (by decide) (by decide) (by decide) (by decide) (by decide) (by decide) (by decide)
    (by decide) (by decide) (Or.inl (by decide))
  exact h.trans (by decide)

/-! ## C6 — basal-record parsing -/

/-- C6: a note whose first non-empty trimmed line starts with a basal
marker (`"Tore "` or `"トレ "`) and whose second whitespace token parses
as a float yields that float as `basalAmount`, the basal-insulin marker
(`"基礎インスリン"`, the source's literal for the spec's "basal insulin")
followed by the remaining lines as `foodItems`, and leaves `ratio` and
`predictedInsulin` absent. -/
theorem c6_basal_parse (notes f m a : String) (ls ps : List String) (q : ℚ)
    (hne : ¬ notes = "")
    (hl : noteLines notes = f :: ls)
    (hm : sStartsWith f "Tore " = true ∨ sStartsWith f "トレ " = true)
    (hp : pySplit f = m :: a :: ps)
    (hq : floatParse a = some q) :
    App.parse_notes notes =
      { cir := none,
        insulin_type := none,
        predicted_insulin := none,
        foods := "基礎インスリン" :: ls,
        basal_amount := some q } := by
  unfold App.parse_notes
  rw [if_neg hne, hl]
  have hcond : (sStartsWith f "Tore " || sStartsWith f "トレ ") = true := by
    rcases hm with h | h <;> simp [h]
  simp only [hcond, if_true, hp, hq]

/-- C6 witness: parsing `"Tore 2.0\nrice ball"` yields basal amount 2.0
and food items `["基礎インスリン", "rice ball"]`. -/
theorem c6_basal_parse_witness :
    App.parse_notes ("Tore 2.0" ++ "\n" ++ "rice ball") =
      { cir := none,
        insulin_type := none,
        predicted_insulin := none,
        foods := ["基礎インスリン", "rice ball"],
        basal_amount := some 2 } := by
  have h := c6_basal_parse ("Tore 2.0" ++ "\n" ++ "rice ball") "Tore 2.0" "Tore" "2.0"
    ["rice ball"] [] 2 (by decide) (by decide) (Or.inl (by decide)) (by decide) (by decide)
  exact h.trans (by decide)

/-! ## C7 — automatic snack marker -/

/-- C7 counterexample: in `nightscout_web_app.py` the snack check tests
the marker substring against the *concatenation* of the food items, so for
carbs `"2"` and parsed foods `["x補", "食y"]` — none of which contains the
marker `"補食"` — no synthetic snack item is prepended, contradicting the
claim. -/
theorem c7_counterexample :
    (NW.parse_notes ("9" ++ "\n" ++ "x補" ++ "\n" ++ "食y")).foods = ["x補", "食y"] ∧
    (["x補", "食y"].all (fun f => !(strHas f "補食")) = true) ∧
    ((NW.prepare []
        [{ created_at := some 0, notes := "9" ++ "\n" ++ "x補" ++ "\n" ++ "食y",
           carbs := "2", insulin := "", glucose := "" }]).toOption.map
      (fun r => r.table_data.map Row.food) = some ["x補, 食y"]) := by
  refine ⟨by decide, by decide, ?_⟩
  simp only [NW.prepare, sortTreatments_singleton]
  decide

/-- C7 (amended): in `app.py`, when the carbs field parses to a value in
`[1, 3]` and no single food item contains the snack-marker substring, the
synthetic marker is prepended exactly once; when the parsed value lies
outside `[1, 3]`, the food list is never changed.
(`nightscout_web_app.py` instead tests the concatenated food string — see
`c7_counterexample`.) -/
theorem c7_snack_rule (carbs : String) (foods : List String) (q : ℚ)
    (hq : floatParse carbs = some q) :
    ((1 ≤ q ∧ q ≤ 3) → (foods.any (fun f => strHas f "補食") = false) →
        App.carbStep carbs foods = (q, "補食" :: foods)) ∧
    (¬ (1 ≤ q ∧ q ≤ 3) → App.carbStep carbs foods = (q, foods)) := by
  have hcne : ¬ carbs = "" := by
    intro h
    rw [h, show floatParse "" = none from by decide] at hq
    cases hq
  unfold App.carbStep
  rw [if_pos hcne]
  simp only [hq]
  constructor
  · intro h1 h2
    rw [if_pos ⟨h1.1, h1.2, by simp [h2]⟩]
  · intro h1
    rw [if_neg (fun hc => h1 ⟨hc.1, hc.2.1⟩)]

/-- C7 witness: carbs `"2"` on an empty food list prepends the marker once;
carbs `"10"` never does. -/
theorem c7_snack_rule_witness :
    App.carbStep "2" [] = (2, ["補食"]) ∧ App.carbStep "10" [] = (10, []) :=
  ⟨(c7_snack_rule "2" [] 2 (by decide)).1 (by decide) (by decide),
   (c7_snack_rule "10" [] 10 (by decide)).2 (by decide)⟩

/-! ## C8 — average glucose -/

/-- C8: `avg_bg` is the (half-to-even) rounded mean of the present `sgv`
values, and 0 when no reading has one. -/
theorem c8_avg_bg (entries : List Entry) (ts : List Treatment) :
    (entries.filterMap Entry.sgv ≠ [] →
      (App.process entries ts).avg_bg
        = pyRound (((entries.filterMap Entry.sgv).sum : ℚ)
            / ((entries.filterMap Entry.sgv).length : ℚ))) ∧
    (entries.filterMap Entry.sgv = [] → (App.process entries ts).avg_bg = 0) := by
  have h : (App.process entries ts).avg_bg
      = if entries.filterMap Entry.sgv = [] then 0
        else pyRound (((entries.filterMap Entry.sgv).sum : ℚ)
            / ((entries.filterMap Entry.sgv).length : ℚ)) := rfl
  constructor
  · intro hne; rw [h, if_neg hne]
  · intro he; rw [h, if_pos he]

/-- C8 witness: readings with values 100 and 101 average to 100.5, which
rounds (half to even) to 100. -/
theorem c8_avg_bg_witness :
    (App.process
       [{ dateString := some 0, sgv := some 100, direction := none, delta := none },
        { dateString := some 300, sgv := some 101, direction := none, delta := none }] []).avg_bg
      = 100 :=
  ((c8_avg_bg
      [{ dateString := some 0, sgv := some 100, direction := none, delta := none },
       { dateString := some 300, sgv := some 101, direction := none, delta := none }] []).1
    (by decide)).trans (by decide)

/-! ## C9 — sorting of the two series -/

/-- The timestamp order is transitive. -/
theorem optLe_trans {a b c : Option Int} (h1 : optLe a b = true) (h2 : optLe b c = true) :
    optLe a c = true := by
  cases a <;> cases b <;> cases c <;> simp_all [optLe]
  omega

/-- The timestamp order is total. -/
theorem optLe_total (a b : Option Int) : optLe a b || optLe b a := by
  cases a <;> cases b <;> simp [optLe]
  omega

/-- C9: both series are sorted ascending by their (timestamp) keys with a
stable merge sort: the sorted list is a permutation of the input, it is
pairwise ordered, and any key-ordered sublist of the input — in particular
any run of equal timestamps — survives as a sublist of the output, so ties
keep the original input order. -/
theorem c9_sorting (entries : List Entry) (ts : List Treatment) :
    ((sortEntries entries).Pairwise (fun a b => optLe a.dateString b.dateString = true) ∧
     (sortEntries entries).Perm entries ∧
     (∀ c : List Entry, c.Pairwise (fun a b => optLe a.dateString b.dateString = true) →
        c.Sublist entries → c.Sublist (sortEntries entries))) ∧
    ((sortTreatments ts).Pairwise (fun a b => optLe a.created_at b.created_at = true) ∧
     (sortTreatments ts).Perm ts ∧
     (∀ c : List Treatment, c.Pairwise (fun a b => optLe a.created_at b.created_at = true) →
        c.Sublist ts → c.Sublist (sortTreatments ts))) := by
  refine ⟨⟨?_, ?_, ?_⟩, ⟨?_, ?_, ?_⟩⟩
  · exact @List.sorted_mergeSort Entry (fun a b => optLe a.dateString b.dateString)
      (fun a b c h1 h2 => optLe_trans h1 h2)
      (fun a b => optLe_total a.dateString b.dateString) entries
  · exact List.mergeSort_perm entries _
  · intro c hc hsub
    exact @List.sublist_mergeSort Entry (fun a b => optLe a.dateString b.dateString) entries
      (fun a b c h1 h2 => optLe_trans h1 h2)
      (fun a b => optLe_total a.dateString b.dateString) c hc hsub
  · exact @List.sorted_mergeSort Treatment (fun a b => optLe a.created_at b.created_at)
      (fun a b c h1 h2 => optLe_trans h1 h2)
      (fun a b => optLe_total a.created_at b.created_at) ts
  · exact List.mergeSort_perm ts _
  · intro c hc hsub
    exact @List.sublist_mergeSort Treatment (fun a b => optLe a.created_at b.created_at) ts
      (fun a b c h1 h2 => optLe_trans h1 h2)
      (fun a b => optLe_total a.created_at b.created_at) c hc hsub

/-- C9 witness: two treatments with the same timestamp stay in input
order after sorting. -/
theorem c9_sorting_witness :
    [{ created_at := some 0, notes := "a", carbs := "", insulin := "", glucose := "" },
     { created_at := some 0, notes := "b", carbs := "", insulin := "", glucose := "" }].Sublist
      (sortTreatments
        [{ created_at := some 0, notes := "a", carbs := "", insulin := "", glucose := "" },
         { created_at := some 0, notes := "b", carbs := "", insulin := "", glucose := "" }]) :=
  (c9_sorting [] _).2.2.2 _ (by decide) (List.Sublist.refl _)

/-! ## C10 — zero renders as the placeholder -/

/-- C10: a parsed ratio or predicted insulin equal to 0 renders as the
placeholder `"-"` exactly like an absent value (`value or "-"`): the note
`"0 0"` parses to present zeros, yet its row shows `"-"` in both columns. -/
theorem c10_zero_is_dash :
    cellOf (some 0) = Cell.str "-" ∧
    cellOf none = Cell.str "-" ∧
    (App.parse_notes "0 0").cir = some 0 ∧
    (App.parse_notes "0 0").predicted_insulin = some 0 ∧
    ((App.process []
        [{ created_at := some 0, notes := "0 0", carbs := "", insulin := "", glucose := "" }]).table_data.map
      (fun r => (r.cir, r.predicted)) = [(Cell.str "-", Cell.str "-")]) := by
  refine ⟨by decide, by decide, by decide, by decide, ?_⟩
  simp only [App.process, sortTreatments_singleton]
  decide
